import Mathlib

/-!
Shallow embedding of the HackForge mental-health chatbot backend
(`Backend/services/moodDetection.py`, `Backend/routes/respond.py`,
`Backend/mcp_llm.py`) and proofs about its mood/risk scoring pipeline.

Conventions of the embedding:
* Python strings are Lean `String`s; `k in text` (substring test) is
  `containsSubstr`; `text.lower()` is `pyLower`; `text.strip()` is
  `pyStrip`; `text.split()` is `pySplit`.  These are written as structural
  recursion over `String.data` so that they evaluate inside the kernel.
* Python floats in the scoring arithmetic are modelled as exact rationals
  (`ℚ`); decimal literals such as `0.8` become `4/5`.
* Python `dict`s used as records become structures; the `media` argument
  (a `dict` in the source) becomes an association list so that Python
  truthiness (`not media` is true for `None` and for `{}`) is representable.
* Effectful collaborators that the spec excludes (VADER, spaCy,
  `random.choice`, file persistence) are abstracted as function parameters;
  the offline cache is modelled as the per-user list of chat entries with
  append/read operations, as the spec directs.
-/

namespace HackForge

/-! ### Python string primitives, kernel-reducible -/

/-- Python `str.lower()` restricted to basic latin, like Lean's
`String.toLower` (`String.map Char.toLower`) but by structural recursion
over the character list. -/
def pyLower (s : String) : String :=
  ⟨s.data.map Char.toLower⟩

/-- Whitespace for Python `str.strip()` / `str.split()` (space, tab, CR,
LF, vertical tab, form feed). -/
def isPySpace (c : Char) : Bool :=
  c.isWhitespace || c = '\x0b' || c = '\x0c'

/-- Python `str.strip()`: drop whitespace from both ends. -/
def pyStrip (s : String) : String :=
  ⟨((s.data.dropWhile isPySpace).reverse.dropWhile isPySpace).reverse⟩

/-- Helper for `pySplit`: walk the characters, accumulating the current
word in reverse. -/
def pySplitGo : List Char → List Char → List String
  | [], acc => if acc.isEmpty then [] else [⟨acc.reverse⟩]
  | c :: cs, acc =>
    if isPySpace c then
      if acc.isEmpty then pySplitGo cs [] else ⟨acc.reverse⟩ :: pySplitGo cs []
    else pySplitGo cs (c :: acc)

/-- Python `str.split()` with no argument: words separated by whitespace
runs, with no empty pieces. -/
def pySplit (s : String) : List String :=
  pySplitGo s.data []

/-- Is `pat` an infix of the character list? (`List.isPrefixOf` tried at
every suffix.) -/
def infixOfList (pat : List Char) : List Char → Bool
  | [] => pat.isEmpty
  | c :: rest => pat.isPrefixOf (c :: rest) || infixOfList pat rest

/-- Python `pat in text` for strings: substring containment. -/
def containsSubstr (text pat : String) : Bool :=
  infixOfList pat.data text.data

/-! ### moodDetection.py : keyword tables -/

/-- `CRISIS_KEYWORDS` from `services/moodDetection.py`. -/
def CRISIS_KEYWORDS : List String :=
  ["suicide", "kill myself", "end my life", "cant go on", "can\x27t go on",
   "want to die", "i will die", "hurt myself", "self harm", "self-harm"]

/-- `EMOTION_KEYWORDS` from `services/moodDetection.py`, as an ordered
association list (Python dicts iterate in insertion order). -/
def EMOTION_KEYWORDS : List (String × List String) :=
  [("sad", ["sad", "depressed", "lonely", "hopeless", "down", "unhappy", "tear", "cry"]),
   ("anxious", ["anxious", "nervous", "worried", "panic", "panic attack", "stressed", "stress"]),
   ("angry", ["angry", "mad", "furious", "annoyed", "irritated", "hate"]),
   ("happy", ["happy", "great", "good", "glad", "awesome", "fine", "joy", "excited"])]

/-- `INTENSITY_MODIFIERS` from `services/moodDetection.py` (floats as exact
rationals). -/
def INTENSITY_MODIFIERS : List (String × ℚ) :=
  [("very", 3/2), ("really", 7/5), ("extremely", 9/5), ("incredibly", 8/5),
   ("absolutely", 17/10), ("quite", 6/5), ("pretty", 11/10), ("somewhat", 4/5),
   ("a bit", 3/5), ("slightly", 1/2), ("totally", 8/5), ("completely", 17/10),
   ("utterly", 9/5), ("deeply", 7/5)]

/-- `NEGATION_WORDS` from `services/moodDetection.py`. -/
def NEGATION_WORDS : List String :=
  ["not", "never", "no", "nothing", "nobody", "nowhere", "neither", "none",
   "can\x27t", "won\x27t", "don\x27t", "isn\x27t", "aren\x27t", "wasn\x27t", "weren\x27t"]

/-- `includes_any` from `services/moodDetection.py`:
`any(k in text for k in keywords)`. -/
def includes_any (text : String) (keywords : List String) : Bool :=
  keywords.any (fun k => containsSubstr text k)

/-- Result of `detectMoodOffline`: the `{'mood': ..., 'score': ...}` dict;
`score` is `none` exactly where Python stores `None`. -/
structure MoodResult where
  mood : String
  score : Option Int
deriving DecidableEq, Repr

/-- The `for mood, keys in EMOTION_KEYWORDS.items()` loop of
`detectMoodOffline`: first mood whose keyword list matches, paired with the
sentiment score. -/
def emotionLoop (txt : String) (score : Int) :
    List (String × List String) → Option MoodResult
  | [] => none
  | (mood, keys) :: rest =>
    if includes_any txt keys then some ⟨mood, some score⟩
    else emotionLoop txt score rest

/-- `detectMoodOffline` from `services/moodDetection.py`.

`sentimentScore` abstracts step 2 (the VADER compound score scaled by 5, or
`_simple_sentiment_score` when VADER is absent); the crisis check happens
before it is consulted. `message` is `Optional[str]`; Python's
`if not message` is true for `None` and for the empty string. -/
def detectMoodOffline (sentimentScore : String → Int) (message : Option String) :
    MoodResult :=
  match message with
  | none => ⟨"neutral", some 0⟩
  | some m =>
    if m = "" then ⟨"neutral", some 0⟩
    else
      let txt := pyLower m
      if includes_any txt CRISIS_KEYWORDS then ⟨"crisis", none⟩
      else
        let score := sentimentScore txt
        match emotionLoop txt score EMOTION_KEYWORDS with
        | some r => r
        | none =>
          if score ≤ -3 then ⟨"sad", some score⟩
          else if score ≤ -1 then ⟨"anxious", some score⟩
          else if score ≥ 3 then ⟨"happy", some score⟩
          else ⟨"neutral", some score⟩

/-! ### moodDetection.py : `_simple_sentiment_score` -/

/-- `positive_words` of `_simple_sentiment_score`. -/
def positive_words : List String :=
  ["good", "great", "awesome", "happy", "love", "amazing", "wonderful",
   "excellent", "fantastic", "perfect"]

/-- `negative_words` of `_simple_sentiment_score`. -/
def negative_words : List String :=
  ["bad", "terrible", "awful", "hate", "horrible", "disgusting", "worst",
   "stupid", "ugly", "annoying"]

/-- Word count of `_simple_sentiment_score`:
`sum(1 for word in text.lower().split() if word in wordlist)`. -/
def word_list_count (text : String) (wordlist : List String) : Nat :=
  ((pySplit (pyLower text)).filter (fun w => wordlist.contains w)).length

/-- `_simple_sentiment_score` from `services/moodDetection.py` (the Python
name carries a leading underscore). -/
def simple_sentiment_score (text : String) : Int :=
  let positive_count := word_list_count text positive_words
  let negative_count := word_list_count text negative_words
  if positive_count > negative_count then min 5 ((positive_count : Int) * 2)
  else if negative_count > positive_count then max (-5) (-((negative_count : Int) * 2))
  else 0

/-! ### moodDetection.py : `analyze_sentiment_context` -/

/-- Association-list lookup (Python `word in dict` plus `dict[word]`),
first match wins. -/
def assocLookup : List (String × ℚ) → String → Option ℚ
  | [], _ => none
  | (k, v) :: rest, w => if w = k then some v else assocLookup rest w

/-- Lookup in `INTENSITY_MODIFIERS` (Python `word in INTENSITY_MODIFIERS`
plus `INTENSITY_MODIFIERS[word]`). -/
def intensityFactor (w : String) : Option ℚ :=
  assocLookup INTENSITY_MODIFIERS w

/-- `analyze_sentiment_context` from `services/moodDetection.py`.
`context_before` is `words[max(0, i-3):i]`.  The first Python loop sets the
modifier to `-0.8` at the first negation word and breaks, which gives the
same value as the `any`-test here; the second loop multiplies by the factor
of every intensity word of the window. -/
def analyze_sentiment_context (words : List String) (target_index : Nat) : ℚ :=
  let context_before := (words.take target_index).drop (target_index - 3)
  let modifier : ℚ :=
    if context_before.any (fun w => NEGATION_WORDS.contains w) then -4/5 else 1
  context_before.foldl
    (fun m w => match intensityFactor w with
      | some f => m * f
      | none => m)
    modifier

/-- Product of the intensity factors of the words of a window (the combined
effect of the second loop of `analyze_sentiment_context` starting from 1). -/
def prodFactors (l : List String) : ℚ :=
  l.foldl
    (fun m w => match intensityFactor w with
      | some f => m * f
      | none => m)
    1

/-! ### Supporting lemmas for the mood-detection theorems -/

lemma emotionLoop_eq_some {l : List (String × List String)} {txt : String}
    {sc : Int} {r : MoodResult} (h : emotionLoop txt sc l = some r) :
    r.score = some sc ∧ r.mood ∈ l.map Prod.fst := by
  induction l with
  | nil => simp [emotionLoop] at h
  | cons p rest ih =>
    rw [emotionLoop] at h
    by_cases hc : includes_any txt p.2 = true
    · simp [hc] at h
      subst h
      simp
    · simp [hc] at h
      rcases ih h with ⟨h1, h2⟩
      exact ⟨h1, by simp [h2]⟩

lemma detectMoodOffline_no_crisis (f : String → Int) (m : String)
    (hm : ¬ m = "") (hc : includes_any (pyLower m) CRISIS_KEYWORDS = false) :
    (detectMoodOffline f (some m)).mood ≠ "crisis" ∧
      (detectMoodOffline f (some m)).score = some (f (pyLower m)) := by
  simp only [detectMoodOffline, hm, if_false, hc, Bool.false_eq_true]
  rcases he : emotionLoop (pyLower m) (f (pyLower m)) EMOTION_KEYWORDS with _ | r
  · simp only [he]
    split
    · exact ⟨by simp, rfl⟩
    · split
      · exact ⟨by simp, rfl⟩
      · split
        · exact ⟨by simp, rfl⟩
        · exact ⟨by simp, rfl⟩
  · simp only [he]
    rcases emotionLoop_eq_some he with ⟨h1, h2⟩
    refine ⟨?_, h1⟩
    simp only [EMOTION_KEYWORDS, List.map_cons, List.map_nil, List.mem_cons,
      List.not_mem_nil, or_false] at h2
    rcases h2 with h | h | h | h <;> simp [h]

/-! ### Claim theorems for moodDetection.py -/

/-- **C1.** If the lowercased message contains any crisis keyword as a
substring, `detectMoodOffline` returns mood `"crisis"` with score `None`,
regardless of the sentiment scorer and of any emotion-keyword matches; and
the returned score is `None` exactly in that case (equivalently, exactly
when the returned mood is `"crisis"`). -/
theorem claim_C1 (f : String → Int) (m : String) :
    (detectMoodOffline f (some m) = ⟨"crisis", none⟩ ↔
      includes_any (pyLower m) CRISIS_KEYWORDS = true) ∧
    ((detectMoodOffline f (some m)).score = none ↔
      includes_any (pyLower m) CRISIS_KEYWORDS = true) ∧
    ((detectMoodOffline f (some m)).mood = "crisis" ↔
      includes_any (pyLower m) CRISIS_KEYWORDS = true) := by
  by_cases hm : m = ""
  · subst hm
    have hc : includes_any (pyLower "") CRISIS_KEYWORDS = false := by decide
    refine ⟨?_, ?_, ?_⟩ <;> simp [detectMoodOffline, hc]
  · by_cases hc : includes_any (pyLower m) CRISIS_KEYWORDS = true
    · have hr : detectMoodOffline f (some m) = ⟨"crisis", none⟩ := by
        simp [detectMoodOffline, hm, hc]
      refine ⟨by simp [hr, hc], by simp [hr, hc], by simp [hr, hc]⟩
    · have hc' : includes_any (pyLower m) CRISIS_KEYWORDS = false := by
        simpa using hc
      rcases detectMoodOffline_no_crisis f m hm hc' with ⟨h1, h2⟩
      refine ⟨?_, ?_, ?_⟩
      · constructor
        · intro h
          exact absurd (by rw [h]) h1
        · intro h
          simp [h] at hc
      · constructor
        · intro h
          rw [h2] at h
          exact absurd h (by simp)
        · intro h
          simp [h] at hc
      · constructor
        · intro h
          exact absurd h h1
        · intro h
          simp [h] at hc

/-- **C10.** For a `None` or empty-string message, `detectMoodOffline`
returns exactly `{'mood': 'neutral', 'score': 0}` for every sentiment
scorer (in particular no sentiment or keyword analysis influences the
result). -/
theorem claim_C10 (f : String → Int) :
    detectMoodOffline f none = ⟨"neutral", some 0⟩ ∧
      detectMoodOffline f (some "") = ⟨"neutral", some 0⟩ :=
  ⟨rfl, rfl⟩

/-- **C6.** `_simple_sentiment_score` returns an integer in `[-5, 5]` that
is positive iff the words contain strictly more positive-list words than
negative-list words (with value `min 5 (2 * positive_count)`), negative iff
strictly more negative-list words (value `max (-5) (-(2 * negative_count))`),
and exactly `0` when the counts are equal. -/
theorem claim_C6 (text : String) :
    (-5 ≤ simple_sentiment_score text ∧ simple_sentiment_score text ≤ 5) ∧
    (0 < simple_sentiment_score text ↔
      word_list_count text negative_words < word_list_count text positive_words) ∧
    (simple_sentiment_score text < 0 ↔
      word_list_count text positive_words < word_list_count text negative_words) ∧
    (word_list_count text negative_words < word_list_count text positive_words →
      simple_sentiment_score text = min 5 ((word_list_count text positive_words : Int) * 2)) ∧
    (word_list_count text positive_words < word_list_count text negative_words →
      simple_sentiment_score text = max (-5) (-((word_list_count text negative_words : Int) * 2))) ∧
    (word_list_count text positive_words = word_list_count text negative_words →
      simple_sentiment_score text = 0) := by
  simp only [simple_sentiment_score]
  split_ifs with h1 h2 <;>
    refine ⟨⟨?_, ?_⟩, ?_, ?_, ?_, ?_, ?_⟩ <;> omega

/-- Witness for C6 at a concrete input: "love love bad" has two
positive-list words and one negative-list word, so the score is positive. -/
theorem claim_C6_witness :
    simple_sentiment_score "love love bad" =
      min 5 ((word_list_count "love love bad" positive_words : Int) * 2) ∧
    simple_sentiment_score "love love bad" = 4 := by
  have h := (claim_C6 "love love bad").2.2.2.1 (by decide)
  exact ⟨h, by decide⟩

/-! ### C5 : `analyze_sentiment_context` -/

lemma foldl_factor_shift (l : List String) (a b : ℚ) :
    l.foldl
        (fun m w => match intensityFactor w with
          | some f => m * f
          | none => m)
        (a * b) =
      a * l.foldl
        (fun m w => match intensityFactor w with
          | some f => m * f
          | none => m)
        b := by
  induction l generalizing b with
  | nil => simp
  | cons w ws ih =>
    simp only [List.foldl_cons]
    rcases hf : intensityFactor w with _ | f
    · simp only [hf]
      exact ih b
    · simp only [hf]
      rw [mul_assoc]
      exact ih (b * f)

lemma assocLookup_pos {l : List (String × ℚ)} (hl : ∀ p ∈ l, 0 < p.2)
    {w : String} {f : ℚ} (h : assocLookup l w = some f) : 0 < f := by
  induction l with
  | nil => simp [assocLookup] at h
  | cons p rest ih =>
    obtain ⟨k, v⟩ := p
    rw [assocLookup] at h
    by_cases hw : w = k
    · rw [if_pos hw] at h
      have hv : v = f := by simpa using h
      rw [← hv]
      exact hl (k, v) (List.mem_cons_self _ _)
    · rw [if_neg hw] at h
      exact ih (fun q hq => hl q (List.mem_cons_of_mem _ hq)) h

lemma intensityFactor_pos {w : String} {f : ℚ}
    (h : intensityFactor w = some f) : 0 < f := by
  rw [intensityFactor] at h
  refine assocLookup_pos ?_ h
  simp only [INTENSITY_MODIFIERS, List.forall_mem_cons, List.forall_mem_nil]
  norm_num

lemma prodFactors_pos (l : List String) : 0 < prodFactors l := by
  induction l with
  | nil => norm_num [prodFactors]
  | cons w ws ih =>
    rw [prodFactors] at ih ⊢
    rw [List.foldl_cons]
    rcases hf : intensityFactor w with _ | f
    · simp only [hf]
      exact ih
    · simp only [hf]
      have hfpos : 0 < f := intensityFactor_pos hf
      have hshift := foldl_factor_shift ws f 1
      rw [mul_one] at hshift
      rw [one_mul, hshift]
      exact mul_pos hfpos ih

lemma analyze_sentiment_context_eq (words : List String) (i : Nat) :
    analyze_sentiment_context words i =
      (if ((words.take i).drop (i - 3)).any (fun w => NEGATION_WORDS.contains w)
          then (-4/5 : ℚ) else 1) *
        prodFactors ((words.take i).drop (i - 3)) := by
  rw [analyze_sentiment_context, prodFactors]
  set cb := ((words.take i).drop (i - 3)) with hcb
  set m₀ : ℚ :=
    (if cb.any (fun w => NEGATION_WORDS.contains w) then (-4/5 : ℚ) else 1) with hm
  have := foldl_factor_shift cb m₀ 1
  rw [mul_one] at this
  exact this

/-- **C5.** `analyze_sentiment_context` returns
`(if negation in the 3-word window then -0.8 else 1.0)` multiplied by the
intensity factor of every intensity adverb of that window; in particular
the result is negative iff one of the up-to-3 words immediately preceding
the keyword is a negation word, and positive otherwise. -/
theorem claim_C5 (words : List String) (target_index : Nat) :
    analyze_sentiment_context words target_index =
      (if ((words.take target_index).drop (target_index - 3)).any
            (fun w => NEGATION_WORDS.contains w)
          then (-4/5 : ℚ) else 1) *
        prodFactors ((words.take target_index).drop (target_index - 3)) ∧
    (analyze_sentiment_context words target_index < 0 ↔
      ((words.take target_index).drop (target_index - 3)).any
        (fun w => NEGATION_WORDS.contains w) = true) ∧
    (0 < analyze_sentiment_context words target_index ↔
      ((words.take target_index).drop (target_index - 3)).any
        (fun w => NEGATION_WORDS.contains w) = false) := by
  have heq := analyze_sentiment_context_eq words target_index
  have hpos := prodFactors_pos ((words.take target_index).drop (target_index - 3))
  refine ⟨heq, ?_, ?_⟩
  · rw [heq]
    rcases hneg : ((words.take target_index).drop (target_index - 3)).any
        (fun w => NEGATION_WORDS.contains w) with _ | _
    · simp only [Bool.false_eq_true, if_false, one_mul, iff_false, not_lt]
      exact le_of_lt hpos
    · simp only [if_true, iff_true]
      have : (-4/5 : ℚ) < 0 := by norm_num
      exact mul_neg_of_neg_of_pos this hpos
  · rw [heq]
    rcases hneg : ((words.take target_index).drop (target_index - 3)).any
        (fun w => NEGATION_WORDS.contains w) with _ | _
    · simp only [Bool.false_eq_true, if_false, one_mul, iff_true]
      exact hpos
    · simp only [if_true, Bool.true_eq_false, iff_false, not_lt]
      have : (-4/5 : ℚ) < 0 := by norm_num
      exact le_of_lt (mul_neg_of_neg_of_pos this hpos)

/-! ### mcp_llm.py : crisis patterns, `CrisisManager.assess_crisis_level` -/

/-- One entry of `CRISIS_PATTERNS`: a keyword list and a weight. -/
structure CrisisPattern where
  keywords : List String
  weight : ℚ
deriving DecidableEq, Repr

/-- `CRISIS_PATTERNS` from `mcp_llm.py` (pattern name, keywords, weight). -/
def CRISIS_PATTERNS : List (String × CrisisPattern) :=
  [("immediate_danger",
    ⟨["kill myself", "end my life", "suicide", "want to die", "going to hurt myself"], 1⟩),
   ("self_harm",
    ⟨["cut myself", "hurt myself", "self harm", "razor", "pills"], 9/10⟩),
   ("despair",
    ⟨["hopeless", "no point", "give up", "cant go on", "worthless"], 7/10⟩),
   ("planning",
    ⟨["plan to", "going to", "tonight", "tomorrow", "method"], 8/10⟩)]

/-- The nested `for pattern ... for keyword ...` loops of
`CrisisManager.assess_crisis_level`: accumulate `crisis_score` and the
`immediate_crisis` flag over all keyword hits. -/
def assessLoop (msg : String) : ℚ × Bool :=
  CRISIS_PATTERNS.foldl
    (fun acc p =>
      p.2.keywords.foldl
        (fun acc2 kw =>
          if containsSubstr msg kw then
            (acc2.1 + p.2.weight, acc2.2 || decide ((9:ℚ)/10 ≤ p.2.weight))
          else acc2)
        acc)
    (0, false)

/-- `CrisisManager.assess_crisis_level` from `mcp_llm.py`.  `riskScore`
abstracts `self.risk_predictor.predict_risk(user_id).score` (it depends on
the stored interaction history and the optional ML model).  Returns the
`(final_score, is_crisis)` pair. -/
def assess_crisis_level (riskScore : ℚ) (message : String) : ℚ × Bool :=
  let r := assessLoop (pyLower message)
  let final := min 1 (r.1 * (3/5) + riskScore * (2/5))
  (final, r.2 || decide ((4:ℚ)/5 ≤ final))

/-- Sum of the weights contributed by one pattern: its weight once per
keyword of the pattern occurring in the message. -/
def kwSumPattern (msg : String) (p : CrisisPattern) : ℚ :=
  (p.keywords.map (fun kw => if containsSubstr msg kw then p.weight else 0)).sum

/-- Total keyword weight sum over all crisis patterns. -/
def kwWeightSum (msg : String) : ℚ :=
  (CRISIS_PATTERNS.map (fun q => kwSumPattern msg q.2)).sum

lemma inner_assess_foldl (msg : String) (w : ℚ) (kws : List String)
    (acc : ℚ × Bool) :
    kws.foldl
        (fun acc2 kw =>
          if containsSubstr msg kw then
            (acc2.1 + w, acc2.2 || decide ((9:ℚ)/10 ≤ w))
          else acc2)
        acc =
      (acc.1 + (kws.map (fun kw => if containsSubstr msg kw then w else 0)).sum,
       acc.2 || (decide ((9:ℚ)/10 ≤ w) && kws.any (fun kw => containsSubstr msg kw))) := by
  induction kws generalizing acc with
  | nil => simp
  | cons kw rest ih =>
    simp only [List.foldl_cons, List.map_cons, List.sum_cons, List.any_cons]
    rcases h : containsSubstr msg kw with _ | _
    · rw [if_neg (by simp), if_neg (by simp), ih]
      simp
    · rw [if_pos rfl, if_pos rfl, ih]
      simp only [Bool.true_or, Bool.and_true, Prod.mk.injEq]
      constructor
      · ring
      · rcases hacc : acc.2 with _ | _ <;>
          cases hd : decide ((9:ℚ)/10 ≤ w) <;> simp

lemma assessLoop_eq (msg : String) :
    assessLoop msg =
      (kwWeightSum msg,
       CRISIS_PATTERNS.any
         (fun q => decide ((9:ℚ)/10 ≤ q.2.weight) &&
           q.2.keywords.any (fun kw => containsSubstr msg kw))) := by
  rw [assessLoop, kwWeightSum]
  have main : ∀ (l : List (String × CrisisPattern)) (acc : ℚ × Bool),
      l.foldl
          (fun acc p =>
            p.2.keywords.foldl
              (fun acc2 kw =>
                if containsSubstr msg kw then
                  (acc2.1 + p.2.weight, acc2.2 || decide ((9:ℚ)/10 ≤ p.2.weight))
                else acc2)
              acc)
          acc =
        (acc.1 + (l.map (fun q => kwSumPattern msg q.2)).sum,
         acc.2 || l.any
           (fun q => decide ((9:ℚ)/10 ≤ q.2.weight) &&
             q.2.keywords.any (fun kw => containsSubstr msg kw))) := by
    intro l
    induction l with
    | nil => simp
    | cons p rest ih =>
      intro acc
      simp only [List.foldl_cons, List.map_cons, List.sum_cons, List.any_cons]
      rw [inner_assess_foldl, ih]
      rw [Prod.mk.injEq]
      constructor
      · simp only [kwSumPattern]
        ring
      · simp only [Bool.or_assoc]
  rw [main CRISIS_PATTERNS (0, false)]
  simp

/-- **C3.** `assess_crisis_level` returns a final score equal to
`min 1 (0.6 * (sum of weights of all crisis-pattern keywords occurring in
the lowercased message) + 0.4 * risk)`, hence never exceeding 1; and it
reports an immediate crisis exactly when some matched pattern keyword has
weight ≥ 0.9 or the final score is ≥ 0.8, the weight-≥-0.9 patterns being
exactly `immediate_danger` and `self_harm`. -/
theorem claim_C3 (risk : ℚ) (message : String) :
    (assess_crisis_level risk message).1 =
      min 1 ((3/5) * kwWeightSum (pyLower message) + (2/5) * risk) ∧
    (assess_crisis_level risk message).1 ≤ 1 ∧
    ((assess_crisis_level risk message).2 = true ↔
      ((∃ p ∈ CRISIS_PATTERNS, (9:ℚ)/10 ≤ p.2.weight ∧
          ∃ kw ∈ p.2.keywords, containsSubstr (pyLower message) kw = true) ∨
        (4:ℚ)/5 ≤ (assess_crisis_level risk message).1)) ∧
    (∀ p ∈ CRISIS_PATTERNS,
      ((9:ℚ)/10 ≤ p.2.weight ↔ p.1 = "immediate_danger" ∨ p.1 = "self_harm")) := by
  have hloop := assessLoop_eq (pyLower message)
  refine ⟨?_, ?_, ?_, ?_⟩
  · simp only [assess_crisis_level, hloop]
    congr 1
    ring
  · simp only [assess_crisis_level]
    exact min_le_left _ _
  · simp only [assess_crisis_level, hloop, Bool.or_eq_true, decide_eq_true_eq,
      List.any_eq_true, Bool.and_eq_true]
  · simp only [CRISIS_PATTERNS, List.forall_mem_cons, List.forall_mem_nil]
    norm_num
    decide

/-- Witness for C3: in "I want to die" the keyword `want to die` of the
weight-1 pattern `immediate_danger` matches, so an immediate crisis is
reported. -/
theorem claim_C3_witness :
    (assess_crisis_level 0 "I want to die").1 =
      min 1 ((3/5) * kwWeightSum (pyLower "I want to die") + (2/5) * 0) ∧
    (assess_crisis_level 0 "I want to die").2 = true := by
  refine ⟨(claim_C3 0 "I want to die").1, ?_⟩
  refine (claim_C3 0 "I want to die").2.2.1.mpr (Or.inl ?_)
  refine ⟨("immediate_danger",
    ⟨["kill myself", "end my life", "suicide", "want to die",
      "going to hurt myself"], 1⟩),
    List.mem_cons_self _ _, by norm_num, "want to die", by simp, by decide⟩

/-! ### mcp_llm.py : `RiskPredictor.predict_risk` (fallback path) -/

/-- `RiskLevel` enum from `mcp_llm.py`. -/
inductive RiskLevel where
  | low
  | moderate
  | high
  | critical
deriving DecidableEq, Repr

/-- `InterventionType` enum from `mcp_llm.py`. -/
inductive InterventionType where
  | self_help
  | peer_support
  | professional
  | emergency
deriving DecidableEq, Repr

/-- The fields of `RiskAssessment` from `mcp_llm.py` that the claims are
about (recommendations, factors and the constant confidence are omitted). -/
structure RiskAssessment where
  score : ℚ
  level : RiskLevel
  intervention : InterventionType
deriving DecidableEq, Repr

/-- Severity order of the risk levels, for the monotonicity statement. -/
def levelRank : RiskLevel → Nat
  | .low => 0
  | .moderate => 1
  | .high => 2
  | .critical => 3

/-- `RiskPredictor.extract_features` when the user has no stored
interactions: `np.array([0.5] * len(self.features))`, the four rolling
features all `0.5`. -/
def extract_features_empty : List ℚ :=
  [1/2, 1/2, 1/2, 1/2]

/-- `np.mean` over a feature vector. -/
def pyMean (l : List ℚ) : ℚ :=
  l.sum / l.length

/-- `RiskPredictor.predict_risk` from `mcp_llm.py` on the non-ML fallback
path (`risk_prob = np.mean(features)`), including the level/intervention
threshold chain. -/
def predict_risk_fallback (features : List ℚ) : RiskAssessment :=
  let risk_prob := pyMean features
  if 4/5 ≤ risk_prob then ⟨risk_prob, .critical, .emergency⟩
  else if 3/5 ≤ risk_prob then ⟨risk_prob, .high, .professional⟩
  else if 2/5 ≤ risk_prob then ⟨risk_prob, .moderate, .peer_support⟩
  else ⟨risk_prob, .low, .self_help⟩

/-- The threshold chain of `predict_risk` as a function of the score. -/
def riskLevelOf (s : ℚ) : RiskLevel :=
  if 4/5 ≤ s then .critical
  else if 3/5 ≤ s then .high
  else if 2/5 ≤ s then .moderate
  else .low

lemma predict_risk_fallback_score (features : List ℚ) :
    (predict_risk_fallback features).score = pyMean features := by
  simp only [predict_risk_fallback]
  split_ifs <;> rfl

lemma predict_risk_fallback_level (features : List ℚ) :
    (predict_risk_fallback features).level = riskLevelOf (pyMean features) := by
  simp only [predict_risk_fallback, riskLevelOf]
  split_ifs <;> rfl

lemma riskLevelOf_critical (m : ℚ) : riskLevelOf m = .critical ↔ 4/5 ≤ m := by
  rw [riskLevelOf]
  split_ifs with h1 h2 h3
  · exact iff_of_true rfl h1
  · exact iff_of_false (by simp) h1
  · exact iff_of_false (by simp) h1
  · exact iff_of_false (by simp) h1

lemma riskLevelOf_high (m : ℚ) :
    riskLevelOf m = .high ↔ 3/5 ≤ m ∧ m < 4/5 := by
  rw [riskLevelOf]
  split_ifs with h1 h2 h3
  · exact iff_of_false (by simp) (by rintro ⟨_, hb⟩; linarith)
  · exact iff_of_true rfl ⟨h2, not_le.mp h1⟩
  · exact iff_of_false (by simp) (by rintro ⟨ha, _⟩; exact h2 ha)
  · exact iff_of_false (by simp) (by rintro ⟨ha, _⟩; exact h2 ha)

lemma riskLevelOf_moderate (m : ℚ) :
    riskLevelOf m = .moderate ↔ 2/5 ≤ m ∧ m < 3/5 := by
  rw [riskLevelOf]
  split_ifs with h1 h2 h3
  · exact iff_of_false (by simp) (by rintro ⟨_, hb⟩; linarith)
  · exact iff_of_false (by simp) (by rintro ⟨_, hb⟩; linarith)
  · exact iff_of_true rfl ⟨h3, not_le.mp h2⟩
  · exact iff_of_false (by simp) (by rintro ⟨ha, _⟩; exact h3 ha)

lemma riskLevelOf_low (m : ℚ) : riskLevelOf m = .low ↔ m < 2/5 := by
  rw [riskLevelOf]
  split_ifs with h1 h2 h3
  · exact iff_of_false (by simp) (by intro hlt; linarith)
  · exact iff_of_false (by simp) (by intro hlt; linarith)
  · exact iff_of_false (by simp) (by intro hlt; linarith)
  · exact iff_of_true rfl (not_le.mp h3)

lemma riskLevelOf_mono {s t : ℚ} (hst : s ≤ t) :
    levelRank (riskLevelOf s) ≤ levelRank (riskLevelOf t) := by
  rw [riskLevelOf, riskLevelOf]
  split_ifs <;> simp only [levelRank] <;> first | omega | (exfalso; linarith)

/-- **C4.** On the non-ML fallback path `predict_risk` scores the mean of
the four rolling features; with no stored interactions every feature is
0.5, so the score is 0.5, the level `moderate` and the intervention
`peer_support`; the level is `critical` iff score ≥ 0.8, `high` iff
0.6 ≤ score < 0.8, `moderate` iff 0.4 ≤ score < 0.6, `low` otherwise, and
the level is monotone in the score. -/
theorem claim_C4 (features : List ℚ) (s t : ℚ) (hst : s ≤ t) :
    (predict_risk_fallback features).score = pyMean features ∧
    predict_risk_fallback extract_features_empty =
      ⟨1/2, .moderate, .peer_support⟩ ∧
    ((predict_risk_fallback features).level = .critical ↔
      4/5 ≤ pyMean features) ∧
    ((predict_risk_fallback features).level = .high ↔
      3/5 ≤ pyMean features ∧ pyMean features < 4/5) ∧
    ((predict_risk_fallback features).level = .moderate ↔
      2/5 ≤ pyMean features ∧ pyMean features < 3/5) ∧
    ((predict_risk_fallback features).level = .low ↔ pyMean features < 2/5) ∧
    (predict_risk_fallback features).level = riskLevelOf (pyMean features) ∧
    levelRank (riskLevelOf s) ≤ levelRank (riskLevelOf t) := by
  have hempty : predict_risk_fallback extract_features_empty =
      ⟨1/2, .moderate, .peer_support⟩ := by
    have hm : pyMean extract_features_empty = 1/2 := by
      norm_num [pyMean, extract_features_empty]
    simp only [predict_risk_fallback, hm]
    norm_num
  refine ⟨predict_risk_fallback_score features, hempty, ?_, ?_, ?_, ?_,
    predict_risk_fallback_level features, riskLevelOf_mono hst⟩
  · rw [predict_risk_fallback_level features, riskLevelOf_critical]
  · rw [predict_risk_fallback_level features, riskLevelOf_high]
  · rw [predict_risk_fallback_level features, riskLevelOf_moderate]
  · rw [predict_risk_fallback_level features, riskLevelOf_low]

/-- Witness for C4: instantiated at the empty-history feature vector and at
the score pair `0 ≤ 1`. -/
theorem claim_C4_witness :
    (0:ℚ) ≤ 1 ∧
    predict_risk_fallback extract_features_empty =
      ⟨1/2, .moderate, .peer_support⟩ ∧
    levelRank (riskLevelOf 0) ≤ levelRank (riskLevelOf 1) := by
  have h := claim_C4 extract_features_empty 0 1 (by norm_num)
  exact ⟨by norm_num, h.2.1, h.2.2.2.2.2.2.2⟩

/-! ### routes/respond.py : session state and helpers -/

/-- A stored chat entry (the `chat_entry` dict of `respond`): the fields
the pipeline reads back.  Timestamps are omitted; the offline cache is
modelled as an append-ordered list per user, as the spec directs. -/
structure ChatEntry where
  mood : String
  keywords : List String
  message_text : String
  sentiment_score : Option Int
deriving DecidableEq, Repr

/-- A session history entry of `update_session` (timestamp omitted). -/
structure SessionEntry where
  mood : String
  keywords : List String
  message_text : String
deriving DecidableEq, Repr

/-- A per-user entry of the `user_sessions` dict. -/
structure Session where
  history : List SessionEntry
  last_question : Option String
deriving DecidableEq, Repr

/-- `MAX_HISTORY` from `routes/respond.py`. -/
def MAX_HISTORY : Nat := 5

/-- The `user_sessions` dict, as a partial map. -/
abbrev Sessions := String → Option Session

/-- A Python `dict` used for the `media` argument, as an association
list (so that the empty dict is representable). -/
abbrev Media := List (String × String)

/-- Lookup in a string dict (`"key" in d` plus `d["key"]`). -/
def dictGet : Media → String → Option String
  | [], _ => none
  | (k, v) :: rest, w => if w = k then some v else dictGet rest w

/-- Python truthiness of the `media : Optional[dict]` argument:
`not media` is true for `None` and for the empty dict. -/
def pyFalsyMedia : Option Media → Bool
  | none => true
  | some d => d.isEmpty

/-- `update_session` from `routes/respond.py`: create the session if
absent, append the entry, `pop(0)` when the history exceeds
`MAX_HISTORY`, store the last question. -/
def update_session (sessions : Sessions) (user_id mood : String)
    (keywords : List String) (message_text : String)
    (last_question : Option String) : Sessions :=
  let s := (sessions user_id).getD ⟨[], none⟩
  let h := s.history ++ [⟨mood, keywords, message_text⟩]
  let h2 := if MAX_HISTORY < h.length then h.drop 1 else h
  fun u => if u = user_id then some ⟨h2, last_question⟩ else sessions u

/-- `get_last_mood_mention` from `routes/respond.py`: the second-to-last
session history entry, when at least two exist. -/
def get_last_mood_mention (sessions : Sessions) (user_id : String) :
    Option SessionEntry :=
  match sessions user_id with
  | none => none
  | some s =>
    if s.history.length < 2 then none
    else s.history.get? (s.history.length - 2)

/-- `user_sessions.get(user_id, {}).get("last_question")`. -/
def session_last_question (sessions : Sessions) (user_id : String) :
    Option String :=
  match sessions user_id with
  | none => none
  | some s => s.last_question

/-- `follow_ups` from `routes/respond.py`. -/
def follow_ups : List (String × List String) :=
  [("happy", ["What else has made you smile recently?",
              "Do you want to share more good news?"]),
   ("sad", ["Would you like to talk about what\x27s troubling you?",
            "Can I help you find ways to feel better?"]),
   ("anxious", ["What do you think is making you anxious?",
                "Want to try a quick relaxation exercise together?"]),
   ("neutral", ["Anything new or interesting on your mind today?",
                "Would you like to share something fun or relaxing?"])]

/-- Association lookup with a list default (`follow_ups.get(mood, [])`). -/
def assocFind : List (String × List String) → String → List String
  | [], _ => []
  | (k, v) :: rest, w => if w = k then v else assocFind rest w

/-- `reply_templates` from `routes/respond.py`. -/
def reply_templates : List (String × List String) :=
  [("crisis", ["🚨 Your safety matters. Please call a helpline immediately: +91-9152987821"])]

/-- `reply_templates["crisis"][0]`. -/
def crisis_template : String :=
  (assocFind reply_templates "crisis").headD ""

/-- Python `list.index`: index of the first occurrence. -/
def pyIndexOf : List String → String → Option Nat
  | [], _ => none
  | x :: rest, q => if q = x then some 0 else (pyIndexOf rest q).map (· + 1)

/-- Lines 148–156 of `routes/respond.py`: choose the follow-up question
from the mood's list and the session's pending `last_question`.  Python's
`if not last_question` is true for `None` and for the empty string;
`elif last_question in possible_follow_ups` is false for `None`. -/
def pick_follow_up (possible : List String) (last_question : Option String) :
    Option String :=
  if (last_question = none ∨ last_question = some "") ∧ possible ≠ [] then
    possible.head?
  else
    match last_question with
    | none => none
    | some q =>
      match pyIndexOf possible q with
      | none => none
      | some idx =>
        if idx < possible.length - 1 then possible.get? (idx + 1) else none

/-- `mimetype.split("/")[0]`: the part before the first slash. -/
def mimePrefix (mt : String) : String :=
  ⟨mt.data.takeWhile (fun c => c ≠ '/')⟩

/-- The "By the way, last time you mentioned feeling ..." sentence that
`respond` appends when the previous session mood differs (empty when
nothing is appended). -/
def mention_suffix (sessions : Sessions) (uid mood : String) : String :=
  match get_last_mood_mention sessions uid with
  | some entry =>
    if entry.mood ≠ mood then
      " By the way, last time you mentioned feeling " ++ entry.mood ++
        ". How are things now?"
    else ""
  | none => ""

/-- The appended follow-up question (empty when none is appended). -/
def follow_up_suffix : Option String → String
  | some q => " " ++ q
  | none => ""

/-- The media acknowledgement that `respond` appends for a truthy media
dict with a `mimetype` key (empty otherwise). -/
def media_suffix : Option Media → String
  | none => ""
  | some d =>
    if d.isEmpty then ""
    else
      match dictGet d "mimetype" with
      | some mt =>
        if mimePrefix mt = "image" then " Thanks for sharing that image! 📸"
        else if mimePrefix mt = "video" then " Thanks for sharing the video! 🎥"
        else " Thanks for sharing the media!"
      | none => ""

/-- The "Quick summary" tail appended when the retrieved history has at
least `MAX_HISTORY` entries (empty otherwise). -/
def summary_suffix (sm : List ChatEntry → String) (history : List ChatEntry) :
    String :=
  if MAX_HISTORY ≤ history.length then "\n\nQuick summary: " ++ sm history
  else ""

/-- The mutable state that `respond` reads and writes: the in-memory
`user_sessions` dict and the offline cache (per-user append-ordered chat
histories, `saveChat`/`getChatHistory`). -/
structure RespondState where
  sessions : Sessions
  store : String → List ChatEntry

/-- The dict returned by `respond`. -/
structure RespondOk where
  user_id : String
  mood : String
  sentiment_score : Option Int
  keywords : List String
  reply_text : String
  crisis : Bool
  media : Option Media

/-- The body of `respond` after the empty-input guard (lines 121–214 of
`routes/respond.py`): detect the mood, extract keywords, append the chat
entry to the offline cache, retrieve the last `MAX_HISTORY` entries, build
the reply, and update the session.

Abstracted collaborators: `f` is the sentiment scorer inside
`detectMoodOffline`; `ek` is `extract_keywords` (spaCy); `ar` is
`getAdaptiveReply` (random choice among templates); `sm` is
`summarizeChat`.  The successive `reply_text += ...` updates of the source
are modelled as appending suffix strings that are empty when the source
appends nothing; the crisis branch then discards the accumulated reply and
clears the follow-up question, and the summary tail is appended after that
override, exactly as in the source. -/
def respondCore (f : String → Int) (ek : String → List String)
    (ar : String → Option Int → String) (sm : List ChatEntry → String)
    (st : RespondState) (uid msg : String) (media : Option Media) :
    RespondOk × RespondState :=
  let message_text := pyStrip msg
  let md := detectMoodOffline f (some message_text)
  let keywords := ek message_text
  let last_question := session_last_question st.sessions uid
  let new_user_history :=
    st.store uid ++ [⟨md.mood, keywords, message_text, md.score⟩]
  let store' : String → List ChatEntry :=
    fun u => if u = uid then new_user_history else st.store u
  let history := new_user_history.drop (new_user_history.length - MAX_HISTORY)
  let follow_up_question :=
    pick_follow_up (assocFind follow_ups md.mood) last_question
  let base := ar md.mood md.score ++ mention_suffix st.sessions uid md.mood ++
    follow_up_suffix follow_up_question ++ media_suffix media
  let finalPair :=
    if md.mood = "crisis" then (crisis_template, (none : Option String))
    else (base, follow_up_question)
  let reply := finalPair.1 ++ summary_suffix sm history
  let sessions' :=
    update_session st.sessions uid md.mood keywords message_text finalPair.2
  (⟨uid, md.mood, md.score, keywords, pyStrip reply, md.mood == "crisis", media⟩,
   ⟨sessions', store'⟩)

/-- `respond` from `routes/respond.py` (the business-logic coroutine at
line 112, not the echo route): raises `ValueError` (`Except.error`) when
the stripped message is empty and the media argument is falsy, otherwise
runs the pipeline. -/
def respond (f : String → Int) (ek : String → List String)
    (ar : String → Option Int → String) (sm : List ChatEntry → String)
    (st : RespondState) (uid msg : String) (media : Option Media) :
    Except String (RespondOk × RespondState) :=
  if pyStrip msg = "" ∧ pyFalsyMedia media = true then
    Except.error "message_text or media is required"
  else
    Except.ok (respondCore f ek ar sm st uid msg media)

/-! ### Supporting lemmas for the respond theorems -/

lemma pyFalsyMedia_iff (media : Option Media) :
    pyFalsyMedia media = true ↔ media = none ∨ media = some [] := by
  cases media with
  | none => simp [pyFalsyMedia]
  | some d => cases d <;> simp [pyFalsyMedia]

lemma respond_ok_elim {f : String → Int} {ek : String → List String}
    {ar : String → Option Int → String} {sm : List ChatEntry → String}
    {st : RespondState} {uid msg : String} {media : Option Media}
    {r : RespondOk} {st' : RespondState}
    (hok : respond f ek ar sm st uid msg media = Except.ok (r, st')) :
    (r, st') = respondCore f ek ar sm st uid msg media := by
  rw [respond] at hok
  by_cases hg : pyStrip msg = "" ∧ pyFalsyMedia media = true
  · rw [if_pos hg] at hok
    exact absurd hok (by simp)
  · rw [if_neg hg] at hok
    exact (Except.ok.inj hok).symm

/-! ### C9 : the empty-input guard of respond -/

/-- **C9 counterexample.** With an empty stripped message and an *empty*
media dict supplied, `respond` still raises (Python `not media` is true
for `{}`), although media is present (not `None`). -/
theorem claim_C9_cex :
    (some ([] : Media) ≠ (none : Option Media)) ∧
    respond (fun _ => 0) (fun _ => []) (fun _ _ => "") (fun _ => "")
        ⟨fun _ => none, fun _ => []⟩ "u1" "" (some []) =
      Except.error "message_text or media is required" := by
  refine ⟨by simp, ?_⟩
  rw [respond, if_pos ⟨by decide, by decide⟩]

/-- **C9 (amended).** `respond` raises `ValueError` exactly when the
stripped message text is empty and the media argument is Python-falsy,
that is, `None` or an empty dict; with a non-empty stripped message or a
non-empty media dict the error is not raised. -/
theorem claim_C9_amended (f : String → Int) (ek : String → List String)
    (ar : String → Option Int → String) (sm : List ChatEntry → String)
    (st : RespondState) (uid msg : String) (media : Option Media) :
    (∃ e, respond f ek ar sm st uid msg media = Except.error e) ↔
      (pyStrip msg = "" ∧ (media = none ∨ media = some [])) := by
  rw [respond]
  by_cases hg : pyStrip msg = "" ∧ pyFalsyMedia media = true
  · rw [if_pos hg]
    constructor
    · intro _
      exact ⟨hg.1, (pyFalsyMedia_iff media).mp hg.2⟩
    · intro _
      exact ⟨"message_text or media is required", rfl⟩
  · rw [if_neg hg]
    constructor
    · rintro ⟨e, he⟩
      exact absurd he (by simp)
    · rintro ⟨h1, h2⟩
      exact absurd ⟨h1, (pyFalsyMedia_iff media).mpr h2⟩ hg

/-! ### C8 : the MAX_HISTORY bound of update_session -/

/-- The arguments of one `update_session` call. -/
structure UpdateCall where
  user_id : String
  mood : String
  keywords : List String
  message_text : String
  last_question : Option String

/-- Apply a sequence of `update_session` calls in order. -/
def apply_updates (sessions : Sessions) : List UpdateCall → Sessions
  | [] => sessions
  | c :: rest =>
    apply_updates
      (update_session sessions c.user_id c.mood c.keywords c.message_text
        c.last_question) rest

/-- The initial `user_sessions = {}`. -/
def emptySessions : Sessions := fun _ => none

/-- A user's session history (empty when the user has no session). -/
def histOf (sessions : Sessions) (u : String) : List SessionEntry :=
  match sessions u with
  | none => []
  | some s => s.history

/-- The session entries a call sequence inserts for user `u`, in order. -/
def entriesFor (u : String) (calls : List UpdateCall) : List SessionEntry :=
  (calls.filter (fun c => c.user_id == u)).map
    (fun c => ⟨c.mood, c.keywords, c.message_text⟩)

lemma update_session_histOf_self (sessions : Sessions) (uid mood : String)
    (kw : List String) (mt : String) (lq : Option String)
    (hlen : (histOf sessions uid).length ≤ MAX_HISTORY) :
    histOf (update_session sessions uid mood kw mt lq) uid =
      (histOf sessions uid ++ [(⟨mood, kw, mt⟩ : SessionEntry)]).drop
        ((histOf sessions uid).length + 1 - MAX_HISTORY) := by
  rw [histOf] at hlen
  rcases hs : sessions uid with _ | s
  · rw [hs] at hlen
    simp [update_session, histOf, hs, MAX_HISTORY]
  · rw [hs] at hlen
    simp only [update_session, histOf, hs, Option.getD_some, if_true,
      eq_self_iff_true]
    by_cases hc :
        MAX_HISTORY < (s.history ++ [(⟨mood, kw, mt⟩ : SessionEntry)]).length
    · rw [if_pos hc]
      simp only [List.length_append, List.length_singleton] at hc
      have h1 : s.history.length + 1 - MAX_HISTORY = 1 := by
        simp only [MAX_HISTORY] at hc hlen ⊢
        omega
      rw [h1]
    · rw [if_neg hc]
      simp only [List.length_append, List.length_singleton] at hc
      have h0 : s.history.length + 1 - MAX_HISTORY = 0 := by omega
      rw [h0, List.drop_zero]

lemma update_session_histOf_other (sessions : Sessions) (uid mood : String)
    (kw : List String) (mt : String) (lq : Option String) (u : String)
    (hu : u ≠ uid) :
    histOf (update_session sessions uid mood kw mt lq) u =
      histOf sessions u := by
  simp [update_session, histOf, hu]

lemma update_session_len (sessions : Sessions) (uid mood : String)
    (kw : List String) (mt : String) (lq : Option String)
    (hinv : ∀ u, (histOf sessions u).length ≤ MAX_HISTORY) (u : String) :
    (histOf (update_session sessions uid mood kw mt lq) u).length ≤
      MAX_HISTORY := by
  by_cases hu : u = uid
  · subst hu
    rw [update_session_histOf_self sessions u mood kw mt lq (hinv u),
      List.length_drop]
    have := hinv u
    simp only [List.length_append, List.length_singleton]
    omega
  · rw [update_session_histOf_other sessions uid mood kw mt lq u hu]
    exact hinv u

lemma apply_updates_histOf (calls : List UpdateCall) (sessions : Sessions)
    (hinv : ∀ u, (histOf sessions u).length ≤ MAX_HISTORY) (u : String) :
    histOf (apply_updates sessions calls) u =
      (histOf sessions u ++ entriesFor u calls).drop
        ((histOf sessions u).length + (entriesFor u calls).length -
          MAX_HISTORY) := by
  induction calls generalizing sessions with
  | nil =>
    have h0 : (histOf sessions u).length - MAX_HISTORY = 0 := by
      have := hinv u
      omega
    simp [apply_updates, entriesFor, h0]
  | cons c rest ih =>
    rw [apply_updates]
    have hinv' := update_session_len sessions c.user_id c.mood c.keywords
      c.message_text c.last_question hinv
    rw [ih _ hinv']
    by_cases hu : c.user_id = u
    · subst hu
      rw [update_session_histOf_self sessions c.user_id c.mood c.keywords
        c.message_text c.last_question (hinv c.user_id)]
      have hent : entriesFor c.user_id (c :: rest) =
          (⟨c.mood, c.keywords, c.message_text⟩ : SessionEntry) ::
            entriesFor c.user_id rest := by
        simp [entriesFor, List.filter_cons]
      rw [hent]
      rw [List.length_drop]
      rw [← List.drop_append_of_le_length (by
        simp only [List.length_append, List.length_singleton]
        omega :
          (histOf sessions c.user_id).length + 1 - MAX_HISTORY ≤
            (histOf sessions c.user_id ++
              [(⟨c.mood, c.keywords, c.message_text⟩ : SessionEntry)]).length)]
      rw [List.drop_drop]
      rw [show (histOf sessions c.user_id ++
          [(⟨c.mood, c.keywords, c.message_text⟩ : SessionEntry)]) ++
          entriesFor c.user_id rest =
        histOf sessions c.user_id ++
          ((⟨c.mood, c.keywords, c.message_text⟩ : SessionEntry) ::
            entriesFor c.user_id rest) by
        rw [List.append_assoc, List.singleton_append]]
      congr 1
      have hlen := hinv c.user_id
      simp only [List.length_append, List.length_singleton, List.length_cons,
        List.length_nil, MAX_HISTORY] at hlen ⊢
      omega
    · rw [update_session_histOf_other sessions c.user_id c.mood c.keywords
        c.message_text c.last_question u (fun h => hu h.symm)]
      have hent : entriesFor u (c :: rest) = entriesFor u rest := by
        simp [entriesFor, List.filter_cons, hu]
      rw [hent]

/-- **C8.** After any sequence of `update_session` calls starting from the
empty session map, each user's session history is exactly the at most
`MAX_HISTORY = 5` most recent entries inserted for that user, in insertion
order (the oldest entries beyond 5 having been dropped), so its length
never exceeds 5. -/
theorem claim_C8 (calls : List UpdateCall) (u : String) :
    histOf (apply_updates emptySessions calls) u =
      (entriesFor u calls).drop ((entriesFor u calls).length - MAX_HISTORY) ∧
    (histOf (apply_updates emptySessions calls) u).length ≤ MAX_HISTORY := by
  have h := apply_updates_histOf calls emptySessions
    (by intro v; simp [histOf, emptySessions]) u
  have hemp : histOf emptySessions u = [] := by simp [histOf, emptySessions]
  rw [hemp] at h
  simp only [List.nil_append, List.length_nil, Nat.zero_add] at h
  refine ⟨h, ?_⟩
  rw [h, List.length_drop]
  simp only [MAX_HISTORY]
  omega

/-! ### C2 : the crisis reply of respond -/

lemma update_session_lastq (sessions : Sessions) (uid m : String)
    (k : List String) (t : String) (lq : Option String) :
    session_last_question (update_session sessions uid m k t lq) uid = lq := by
  simp [session_last_question, update_session]

/-- Concrete collaborators for the witnesses. -/
def demoScore : String → Int := fun _ => 0

def demoKeywords : String → List String := fun _ => []

def demoReply : String → Option Int → String := fun _ _ => "A"

def demoSummary : List ChatEntry → String := fun _ => "S"

def demoState : RespondState := ⟨fun _ => none, fun _ => []⟩

/-- **C2.** When the detected mood is `"crisis"`, the reply returned by
`respond` is the crisis hotline template (which contains the helpline
`+91-9152987821`), followed only by the history summary when the stored
history (after saving the current message) has at least `MAX_HISTORY = 5`
entries; no follow-up question is stored for the session; and the returned
`crisis` flag is true exactly when the mood is `"crisis"`. -/
theorem claim_C2 (f : String → Int) (ek : String → List String)
    (ar : String → Option Int → String) (sm : List ChatEntry → String)
    (st : RespondState) (uid msg : String) (media : Option Media)
    (r : RespondOk) (st' : RespondState)
    (hok : respond f ek ar sm st uid msg media = Except.ok (r, st')) :
    (r.crisis = true ↔ r.mood = "crisis") ∧
    containsSubstr crisis_template "+91-9152987821" = true ∧
    (r.mood = "crisis" →
      (MAX_HISTORY ≤ (st.store uid).length + 1 →
        r.reply_text = pyStrip (crisis_template ++ ("\n\nQuick summary: " ++
          sm ((st.store uid ++
              [(⟨r.mood, r.keywords, pyStrip msg, r.sentiment_score⟩ :
                ChatEntry)]).drop
            ((st.store uid).length + 1 - MAX_HISTORY))))) ∧
      ((st.store uid).length + 1 < MAX_HISTORY →
        r.reply_text = crisis_template) ∧
      (∃ hh, st'.sessions uid = some ⟨hh, none⟩)) := by
  have hpair := respond_ok_elim hok
  have hr : r = (respondCore f ek ar sm st uid msg media).1 :=
    congrArg Prod.fst hpair
  have hst : st' = (respondCore f ek ar sm st uid msg media).2 :=
    congrArg Prod.snd hpair
  subst hr hst
  simp only [respondCore]
  refine ⟨beq_iff_eq, by decide, ?_⟩
  intro hcr
  rw [if_pos hcr]
  refine ⟨?_, ?_, ?_⟩
  · intro hge
    have hcond : MAX_HISTORY ≤
        ((st.store uid ++
          [(⟨(detectMoodOffline f (some (pyStrip msg))).mood, ek (pyStrip msg),
            pyStrip msg, (detectMoodOffline f (some (pyStrip msg))).score⟩ :
              ChatEntry)]).drop
          ((st.store uid ++
            [(⟨(detectMoodOffline f (some (pyStrip msg))).mood,
              ek (pyStrip msg), pyStrip msg,
              (detectMoodOffline f (some (pyStrip msg))).score⟩ :
                ChatEntry)]).length - MAX_HISTORY)).length := by
      rw [List.length_drop]
      simp only [List.length_append, List.length_singleton, MAX_HISTORY] at hge ⊢
      omega
    rw [summary_suffix, if_pos hcond]
    simp only [List.length_append, List.length_singleton]
  · intro hlt
    have hcond : ¬ MAX_HISTORY ≤
        ((st.store uid ++
          [(⟨(detectMoodOffline f (some (pyStrip msg))).mood, ek (pyStrip msg),
            pyStrip msg, (detectMoodOffline f (some (pyStrip msg))).score⟩ :
              ChatEntry)]).drop
          ((st.store uid ++
            [(⟨(detectMoodOffline f (some (pyStrip msg))).mood,
              ek (pyStrip msg), pyStrip msg,
              (detectMoodOffline f (some (pyStrip msg))).score⟩ :
                ChatEntry)]).length - MAX_HISTORY)).length := by
      rw [List.length_drop]
      simp only [List.length_append, List.length_singleton, MAX_HISTORY] at hlt ⊢
      omega
    rw [summary_suffix, if_neg hcond]
    decide
  · simp only [update_session]
    exact ⟨_, if_pos trivial⟩

/-- Witness for C2 at a concrete input: the message "suicide" triggers the
crisis reply. -/
theorem claim_C2_witness :
    ∃ r st',
      respond demoScore demoKeywords demoReply demoSummary demoState
          "u" "suicide" none = Except.ok (r, st') ∧
        r.crisis = true ∧ r.reply_text = crisis_template := by
  have hg : ¬((pyStrip "suicide" = "" ∧ pyFalsyMedia none = true)) := by decide
  have hok : respond demoScore demoKeywords demoReply demoSummary demoState
      "u" "suicide" none =
      Except.ok
        ((respondCore demoScore demoKeywords demoReply demoSummary demoState
          "u" "suicide" none).1,
         (respondCore demoScore demoKeywords demoReply demoSummary demoState
          "u" "suicide" none).2) := by
    rw [respond, if_neg hg]
  have h := claim_C2 demoScore demoKeywords demoReply demoSummary demoState
    "u" "suicide" none _ _ hok
  have hmood : (respondCore demoScore demoKeywords demoReply demoSummary
      demoState "u" "suicide" none).1.mood = "crisis" := by decide
  refine ⟨_, _, hok, h.1.mpr hmood, ?_⟩
  have hlen : (demoState.store "u").length + 1 < MAX_HISTORY := by decide
  exact (h.2.2 hmood).2.1 hlen

/-! ### C7 : the follow-up question rotation of respond -/

lemma pick_follow_up_none {possible : List String} (h : possible ≠ []) :
    pick_follow_up possible none = possible.head? := by
  rw [pick_follow_up, if_pos ⟨Or.inl rfl, h⟩]

lemma pyIndexOf_mem {l : List String} {q : String} {i : Nat}
    (h : pyIndexOf l q = some i) : q ∈ l := by
  induction l generalizing i with
  | nil => simp [pyIndexOf] at h
  | cons x rest ih =>
    rw [pyIndexOf] at h
    by_cases hq : q = x
    · exact hq ▸ List.mem_cons_self _ _
    · rw [if_neg hq] at h
      rcases ho : pyIndexOf rest q with _ | j
      · rw [ho] at h
        simp at h
      · exact List.mem_cons_of_mem _ (ih ho)

lemma pick_follow_up_some {possible : List String} {q : String} {i : Nat}
    (hq : ¬ q = "") (hidx : pyIndexOf possible q = some i) :
    pick_follow_up possible (some q) =
      if i < possible.length - 1 then possible.get? (i + 1) else none := by
  have hne : ¬(((some q : Option String) = none ∨
      (some q : Option String) = some "") ∧ possible ≠ []) := by
    rintro ⟨h | h, _⟩
    · exact Option.noConfusion h
    · exact hq (Option.some.inj h)
  rw [pick_follow_up, if_neg hne]
  simp [hidx]

/-- **C7.** For a detected non-crisis mood among happy/sad/anxious/neutral,
the follow-up question that `respond` appends (and stores as the session's
pending question) is: the mood's first question when no question is
pending; the next question of the mood's list when the pending question
sits in that list before its last position; and none when the pending
question is the last of the list or belongs to a different mood's list.
Whenever a question is selected it is appended to the reply text. -/
theorem claim_C7 (f : String → Int) (ek : String → List String)
    (ar : String → Option Int → String) (sm : List ChatEntry → String)
    (st : RespondState) (uid msg : String) (media : Option Media)
    (r : RespondOk) (st' : RespondState)
    (hok : respond f ek ar sm st uid msg media = Except.ok (r, st'))
    (hmood : r.mood ∈ ["happy", "sad", "anxious", "neutral"]) :
    session_last_question st'.sessions uid =
      pick_follow_up (assocFind follow_ups r.mood)
        (session_last_question st.sessions uid) ∧
    (session_last_question st.sessions uid = none →
      session_last_question st'.sessions uid =
        (assocFind follow_ups r.mood).head?) ∧
    (∀ q i, session_last_question st.sessions uid = some q →
      pyIndexOf (assocFind follow_ups r.mood) q = some i →
      i + 1 < (assocFind follow_ups r.mood).length →
      session_last_question st'.sessions uid =
        (assocFind follow_ups r.mood).get? (i + 1)) ∧
    (∀ q, session_last_question st.sessions uid = some q →
      (pyIndexOf (assocFind follow_ups r.mood) q =
          some ((assocFind follow_ups r.mood).length - 1) ∨
        (∃ m ∈ ["happy", "sad", "anxious", "neutral"], m ≠ r.mood ∧
          q ∈ assocFind follow_ups m)) →
      session_last_question st'.sessions uid = none) ∧
    (∀ q, session_last_question st'.sessions uid = some q →
      ∃ pre post, r.reply_text = pyStrip (pre ++ (" " ++ q) ++ post)) := by
  have hpair := respond_ok_elim hok
  have hr : r = (respondCore f ek ar sm st uid msg media).1 :=
    congrArg Prod.fst hpair
  have hst : st' = (respondCore f ek ar sm st uid msg media).2 :=
    congrArg Prod.snd hpair
  subst hr hst
  simp only [respondCore] at hmood ⊢
  simp only [List.mem_cons, List.not_mem_nil, or_false] at hmood
  have hcr : ¬ (detectMoodOffline f (some (pyStrip msg))).mood = "crisis" := by
    rcases hmood with h | h | h | h <;> rw [h] <;> decide
  rw [if_neg hcr]
  simp only [update_session_lastq]
  refine ⟨trivial, ?_, ?_, ?_, ?_⟩
  · intro h0
    rw [h0]
    have hne : assocFind follow_ups
        (detectMoodOffline f (some (pyStrip msg))).mood ≠ [] := by
      rcases hmood with h | h | h | h <;> rw [h] <;> decide
    rw [pick_follow_up_none hne]
  · intro q i h0 hidx hlt
    have hqmem := pyIndexOf_mem hidx
    have hqe : ¬ q = "" := by
      intro he
      rw [he] at hqmem
      revert hqmem
      rcases hmood with h | h | h | h <;> rw [h] <;> decide
    rw [h0, pick_follow_up_some hqe hidx, if_pos (by omega)]
  · intro q h0 hcase
    rcases hcase with hidx | ⟨m, hm4, hmne, hqm⟩
    · have hqmem := pyIndexOf_mem hidx
      have hqe : ¬ q = "" := by
        intro he
        rw [he] at hqmem
        revert hqmem
        rcases hmood with h | h | h | h <;> rw [h] <;> decide
      rw [h0, pick_follow_up_some hqe hidx, if_neg (by omega)]
    · simp only [List.mem_cons, List.not_mem_nil, or_false] at hm4
      rw [h0]
      rcases hmood with h | h | h | h <;> rw [h] at hmne ⊢ <;>
        rcases hm4 with hm | hm | hm | hm <;> rw [hm] at hmne hqm <;>
          first
            | exact absurd rfl hmne
            | (simp [assocFind, follow_ups] at hqm
               rcases hqm with rfl | rfl <;> decide)
  · intro q hsel
    rw [hsel]
    refine ⟨ar (detectMoodOffline f (some (pyStrip msg))).mood
        (detectMoodOffline f (some (pyStrip msg))).score ++
        mention_suffix st.sessions uid
          (detectMoodOffline f (some (pyStrip msg))).mood,
      media_suffix media ++ summary_suffix sm
        ((st.store uid ++
          [(⟨(detectMoodOffline f (some (pyStrip msg))).mood, ek (pyStrip msg),
            pyStrip msg, (detectMoodOffline f (some (pyStrip msg))).score⟩ :
              ChatEntry)]).drop
          ((st.store uid ++
            [(⟨(detectMoodOffline f (some (pyStrip msg))).mood,
              ek (pyStrip msg), pyStrip msg,
              (detectMoodOffline f (some (pyStrip msg))).score⟩ :
                ChatEntry)]).length - MAX_HISTORY)), ?_⟩
    refine congrArg pyStrip ?_
    simp only [follow_up_suffix]
    rw [String.append_assoc]

/-- Witness for C7: first message "i am happy" with no pending question
stores the first happy follow-up question. -/
theorem claim_C7_witness :
    session_last_question
        ((respondCore demoScore demoKeywords demoReply demoSummary demoState
          "u" "i am happy" none).2).sessions "u" =
      (assocFind follow_ups "happy").head? := by
  have hg : ¬((pyStrip "i am happy" = "" ∧ pyFalsyMedia none = true)) := by
    decide
  have hok : respond demoScore demoKeywords demoReply demoSummary demoState
      "u" "i am happy" none =
      Except.ok
        ((respondCore demoScore demoKeywords demoReply demoSummary demoState
          "u" "i am happy" none).1,
         (respondCore demoScore demoKeywords demoReply demoSummary demoState
          "u" "i am happy" none).2) := by
    rw [respond, if_neg hg]
  have hmood : (respondCore demoScore demoKeywords demoReply demoSummary
      demoState "u" "i am happy" none).1.mood ∈
      ["happy", "sad", "anxious", "neutral"] := by decide
  have h := claim_C7 demoScore demoKeywords demoReply demoSummary demoState
    "u" "i am happy" none _ _ hok hmood
  have h0 : session_last_question demoState.sessions "u" = none := rfl
  have h2 := h.2.1 h0
  have hm : (respondCore demoScore demoKeywords demoReply demoSummary
      demoState "u" "i am happy" none).1.mood = "happy" := by decide
  rw [hm] at h2
  exact h2

end HackForge
